import Mathlib

/-!
# Verification of the gyroflow stabilization orchestrator core

Shallow embedding of `src/core/lib.rs` (the `StabilizationManager` and its
free functions).  Machine floats (`f64`/`f32`) are embedded as exact
rationals `ℚ`; `usize` as `ℕ`; `u64`/`i64` as `ℕ`/`ℤ`; the Rust
`as usize` cast of a non-negative float truncates toward zero, embedded as
`Int.toNat ∘ Int.floor`.  Subsystems that live outside `lib.rs`
(gyro integration, smoothing math, the adaptive-zoom solver, the GPU
undistortion kernel) are abstracted as opaque data or as function
parameters; only the orchestration logic of `lib.rs` itself is embedded
concretely.
-/

set_option autoImplicit false

namespace Gyroflow

/-- Rust `as usize` applied to a finite non-negative float value:
truncation toward zero, saturating at 0 for negatives. -/
def f64_as_usize (q : ℚ) : ℕ := (Int.floor q).toNat

/-- Embedding of `BasicParams` (src/core/lib.rs lines 38-66).  Field for
field; `Vector4<f32>` background embedded as a 4-tuple of rationals. -/
structure BasicParams where
  size : ℕ × ℕ
  output_size : ℕ × ℕ
  video_size : ℕ × ℕ
  video_output_size : ℕ × ℕ
  background : ℚ × ℚ × ℚ × ℚ
  frame_readout_time : ℚ
  adaptive_zoom_window : ℚ
  fov : ℚ
  fovs : List ℚ
  fps : ℚ
  fps_scale : Option ℚ
  frame_count : ℕ
  duration_ms : ℚ
  trim_start : ℚ
  trim_end : ℚ
  video_rotation : ℚ
  framebuffer_inverted : Bool
  is_calibrator : Bool
  stab_enabled : Bool
  show_detected_features : Bool
  show_optical_flow : Bool
  deriving DecidableEq, Repr

/-- `impl Default for BasicParams` (lines 67-99). -/
def BasicParams.default : BasicParams where
  size := (0, 0)
  output_size := (0, 0)
  video_size := (0, 0)
  video_output_size := (0, 0)
  background := (0, 0, 0, 0)
  frame_readout_time := 0
  adaptive_zoom_window := 0
  fov := 1
  fovs := []
  fps := 0
  fps_scale := none
  frame_count := 0
  duration_ms := 0
  trim_start := 0
  trim_end := 1
  video_rotation := 0
  framebuffer_inverted := false
  is_calibrator := false
  stab_enabled := true
  show_detected_features := true
  show_optical_flow := true

/-- `BasicParams::get_scaled_duration_ms` (lines 102-107). -/
def get_scaled_duration_ms (p : BasicParams) : ℚ :=
  match p.fps_scale with
  | some scale => p.duration_ms / scale
  | none => p.duration_ms

/-- `BasicParams::get_scaled_fps` (lines 108-113). -/
def get_scaled_fps (p : BasicParams) : ℚ :=
  match p.fps_scale with
  | some scale => p.fps / scale
  | none => p.fps

/-- Abstraction of the `GyroSource` subsystem state: the three quaternion
sequences that `recompute_threaded` copies between the working snapshot and
the shared handle (lines 342-344) are kept as opaque tokens. -/
structure GyroState where
  quaternions : ℕ
  smoothed_quaternions : ℕ
  org_smoothed_quaternions : ℕ
  deriving DecidableEq, Repr

/-- `GyroSource::new()`: a fresh gyro source (used by `clear`, line 572). -/
def GyroSource_new : GyroState := ⟨0, 0, 0⟩

/-- Abstraction of `undistortion::ComputeParams`: the working snapshot taken
by `recompute_threaded` carries a gyro copy and a fovs list (the fields the
job mutates at lines 339-353). -/
structure ComputeParams where
  gyro : GyroState
  fovs : List ℚ
  deriving DecidableEq, Repr

/-- Embedding of the `StabilizationManager` fields the claims touch
(lines 116-134).  The `Arc<RwLock<...>>` wrappers are erased: each field is
the value currently stored.  The undistortion engine is represented by the
`ComputeParams` last committed via `set_compute_params` (or `none` before
any commit); cached sync results of the pose estimator as a list of opaque
tokens; the camera identifier as an optional token. -/
structure StabilizationManager where
  params : BasicParams
  gyro : GyroState
  current_compute_id : ℕ
  smoothness_checksum : ℕ
  adaptive_zoom_checksum : ℕ
  undistortion : Option ComputeParams
  sync_results : List ℕ
  camera_id : Option ℕ
  deriving DecidableEq, Repr

/-- `undistortion::ComputeParams::from_manager` as used at lines 304, 317
and 587: a snapshot of the gyro state and the per-frame fovs. -/
def ComputeParams.from_manager (s : StabilizationManager) : ComputeParams :=
  { gyro := s.gyro, fovs := s.params.fovs }

/-- Free function `timestamp_at_frame` (line 594):
`frame as f64 * fps * 1000.0`. -/
def timestamp_at_frame (frame : ℤ) (fps : ℚ) : ℚ :=
  (frame : ℚ) * fps * 1000

/-- Free function `frame_at_timestamp` (line 595):
`(timestamp_ms * (fps / 1000.0)).round() as i32`.  Rust `f64::round` rounds
half away from zero; all uses in the claims are at non-negative values,
where it agrees with Mathlib `round` (half up). -/
def frame_at_timestamp (timestamp_ms : ℚ) (fps : ℚ) : ℤ :=
  round (timestamp_ms * (fps / 1000))

/-- `StabilizationManager::set_size` (lines 253-262), restricted to its
effect on `params` (the subsequent `init_size` call only forwards the sizes
to the undistortion engine and is not modeled). -/
def set_size (p : BasicParams) (width height : ℕ) : BasicParams :=
  let p := { p with size := (width, height) }
  let ratio : ℚ := (p.size.fst : ℚ) / (p.video_size.fst : ℚ)
  { p with output_size :=
      (f64_as_usize ((p.video_output_size.fst : ℚ) * ratio),
       f64_as_usize ((p.video_output_size.snd : ℚ) * ratio)) }

/-- `StabilizationManager::set_output_size` (lines 263-271), restricted to
its effect on `params`. -/
def set_output_size (p : BasicParams) (width height : ℕ) : BasicParams :=
  let ratio : ℚ := (p.size.fst : ℚ) / (p.video_size.fst : ℚ)
  { p with
      output_size :=
        (f64_as_usize ((width : ℚ) * ratio),
         f64_as_usize ((height : ℚ) * ratio)),
      video_output_size := (width, height) }

/-- The proportionality invariant claimed by the spec: `output_size` equals
`video_output_size` scaled by `size.width / video_size.width`, each
component truncated to `usize`. -/
def sizeInvariant (p : BasicParams) : Prop :=
  p.output_size =
    (f64_as_usize ((p.video_output_size.fst : ℚ) *
        ((p.size.fst : ℚ) / (p.video_size.fst : ℚ))),
     f64_as_usize ((p.video_output_size.snd : ℚ) *
        ((p.size.fst : ℚ) / (p.video_size.fst : ℚ))))

instance (p : BasicParams) : Decidable (sizeInvariant p) := by
  unfold sizeInvariant; infer_instance

/-- Destination indices written by `fill_undistortion_data_padded`
(lines 412-419) when the capacity check passes, for a source of
`params_count` scalars: 8 leading scalars copied to indices 0..7, then for
each source index `i ∈ {9, 12, 15, ...} < params_count` (the loop variable
`j` starting at 2 and incremented each step) three scalars copied to
`j*4, j*4+1, j*4+2`. -/
def fillWriteIndices (params_count : ℕ) : List ℕ :=
  List.range 8 ++
    (List.range ((params_count - 9 + 2) / 3)).flatMap
      (fun k => [(2 + k) * 4, (2 + k) * 4 + 1, (2 + k) * 4 + 2])

/-- `StabilizationManager::fill_undistortion_data_padded` (lines 407-425).
`undistortion_data` is `itm.params.len()` when
`get_undistortion_data` returns an item (each item is a 3x3 `f32` matrix,
hence `params_count = len * 9` scalars), `none` otherwise.  The result is
the returned boolean together with the list of destination indices the
function writes; the gate `params_count <= out_size` is exactly the one in
the source. -/
def fill_undistortion_data_padded (stab_enabled : Bool)
    (undistortion_data : Option ℕ) (out_size : ℕ) : Bool × List ℕ :=
  if stab_enabled then
    match undistortion_data with
    | some len =>
      let params_count := len * 9
      if params_count ≤ out_size then (true, fillWriteIndices params_count)
      else (false, [])
    | none => (false, [])
  else (false, [])

/-- `StabilizationManager::process_pixels` (lines 427-482), abstracted over
the overlay drawing (which only mutates the input buffer) and the
undistortion engine's own `process_pixels` (external module).  `overlayFn`
receives the computed frame index and the input buffer; `engine` receives
the (fps-scale-adjusted) timestamp, the overlaid input buffer and the
output buffer, and returns the engine's verdict and output buffer. -/
def process_pixels (p : BasicParams) (timestamp_us : ℤ)
    (out_width out_height : ℕ) (in_pixels out_pixels : List ℕ)
    (overlayFn : ℤ → List ℕ → List ℕ)
    (engine : ℤ → List ℕ → List ℕ → Bool × List ℕ) : Bool × List ℕ :=
  if p.stab_enabled ∧ p.output_size.fst = out_width ∧
      p.output_size.snd = out_height then
    let ts : ℤ :=
      match p.fps_scale with
      | some scale => round ((timestamp_us : ℚ) / scale)
      | none => timestamp_us
    let frame : ℤ := frame_at_timestamp ((ts : ℚ) / 1000) p.fps
    engine ts (overlayFn frame in_pixels) out_pixels
  else (false, out_pixels)

/-- `StabilizationManager::clear` (lines 563-574): rebuild `params` from
`Default` keeping the six captured fields, replace the gyro source with a
fresh instance, clear the pose estimator's cached sync results. -/
def clear (s : StabilizationManager) : StabilizationManager :=
  let p := s.params
  { s with
      params :=
        { BasicParams.default with
            stab_enabled := p.stab_enabled,
            show_detected_features := p.show_detected_features,
            show_optical_flow := p.show_optical_flow,
            background := p.background,
            adaptive_zoom_window := p.adaptive_zoom_window,
            framebuffer_inverted := p.framebuffer_inverted },
      gyro := GyroSource_new,
      sync_results := [] }

/-- `StabilizationManager::init_from_video_data` (lines 163-177): store
fps, frame count, duration and video size, clear cached sync results, then
run the gyro-telemetry load discarding its result (`let _ = ...`).
`loadGyro` abstracts `load_gyro_data`: it may transform the state it is
allowed to touch (gyro source, `frame_readout_time`, camera id) and reports
success or an IO error; its partial effects persist either way, and its
error is dropped. -/
def init_from_video_data (s : StabilizationManager)
    (duration_ms fps : ℚ) (frame_count : ℕ) (video_size : ℕ × ℕ)
    (loadGyro : GyroState × ℚ × Option ℕ →
      (GyroState × ℚ × Option ℕ) × Except Unit Unit) :
    Except Unit StabilizationManager :=
  let p := { s.params with
      fps := fps,
      frame_count := frame_count,
      duration_ms := duration_ms,
      video_size := video_size }
  let s1 := { s with params := p, sync_results := [] }
  let r := loadGyro (s1.gyro, s1.params.frame_readout_time, s1.camera_id)
  let s2 := { s1 with
      gyro := r.fst.fst,
      params := { s1.params with frame_readout_time := r.fst.snd.fst },
      camera_id := r.fst.snd.snd }
  Except.ok s2

/-- Modelled from the spec: `AdaptiveZoom::compute` lives in the
`adaptive_zoom` module, which is not part of the provided source; per §6 it
maps an orientation sequence to per-frame field-of-view values (one tuple
per input orientation, the fov in the first component).  The per-orientation
work is abstracted as the parameter `f`. -/
def AdaptiveZoom_compute (f : ℚ → ℚ × ℚ) (quats : List ℚ) : List (ℚ × ℚ) :=
  quats.map f

/-- `StabilizationManager::recompute_adaptive_zoom_static` (lines 273-292).
`f` abstracts the zoom solver's per-orientation work (see
`AdaptiveZoom_compute`); `smoothed_quat_at` abstracts
`GyroSource::smoothed_quat_at_timestamp` (orientations embedded as opaque
rationals).  The guard, the sampling timestamps `i * 1000 / scaled_fps` and
the projection to the first tuple component follow the source. -/
def recompute_adaptive_zoom_static (f : ℚ → ℚ × ℚ)
    (smoothed_quat_at : ℚ → ℚ) (p : BasicParams) : List ℚ :=
  let window := p.adaptive_zoom_window
  let frames := p.frame_count
  let fps := get_scaled_fps p
  if window > 0 ∨ window < -(9 / 10 : ℚ) then
    let quats := (List.range frames).map
      (fun (i : ℕ) => smoothed_quat_at ((i : ℚ) * 1000 / fps))
    let fovs := AdaptiveZoom_compute f quats
    fovs.map Prod.fst
  else []

/-- `StabilizationManager::recompute_adaptive_zoom` (lines 293-297):
store the static helper's result into `params.fovs`. -/
def recompute_adaptive_zoom (f : ℚ → ℚ × ℚ) (smoothed_quat_at : ℚ → ℚ)
    (s : StabilizationManager) : StabilizationManager :=
  { s with params :=
      { s.params with
          fovs := recompute_adaptive_zoom_static f smoothed_quat_at s.params } }

/-- `StabilizationManager::override_video_fps` (lines 576-591).
`gyroInit` abstracts `GyroSource::init_from_params` (external module).
The fps-scale decision, the undistortion rebuild from the updated manager,
and the zeroing of both checksums follow the source. -/
def override_video_fps (gyroInit : BasicParams → GyroState → GyroState)
    (s : StabilizationManager) (fps : ℚ) : StabilizationManager :=
  let p := s.params
  let p1 :=
    if |fps - p.fps| > 1 / 1000 then
      { p with fps_scale := some (fps / p.fps) }
    else
      { p with fps_scale := none }
  let s1 := { s with params := p1, gyro := gyroInit p1 s.gyro }
  { s1 with
      undistortion := some (ComputeParams.from_manager s1),
      smoothness_checksum := 0,
      adaptive_zoom_checksum := 0 }

/-- Result of one spawned recompute job: the shared state it leaves behind,
which stages ran, whether stage 3 committed, and the callback invocations
(the list of job ids `cb` received, in order). -/
structure JobResult where
  state : StabilizationManager
  smoothing_ran : Bool
  zoom_ran : Bool
  committed : Bool
  callbacks : List ℕ
  deriving DecidableEq, Repr

/-- The closure spawned by `recompute_threaded` (lines 332-363).
`compute_id` is the job's own id; `obsA`, `obsB`, `obsC` are the values
`current_compute_id.load` returns at the three checkpoints (lines 334, 348,
356), letting a concurrent newer submission be modeled; `smoothing_cs` and
`zoom_cs` are the (stable during the job) fingerprints
`smoothing.get_state_checksum()` and `zoom.get_state_checksum()`;
`smoothFn` abstracts `GyroSource::recompute_smoothness` on the snapshot's
gyro; `zoomFn` abstracts the `recompute_adaptive_zoom_static` call on the
snapshot's gyro; `snapshot` is the `ComputeParams` taken at submission;
`s` is the shared state. -/
def runJob (compute_id obsA obsB obsC : ℕ) (smoothing_cs zoom_cs : ℕ)
    (smoothFn : GyroState → GyroState) (zoomFn : GyroState → List ℚ)
    (snapshot : ComputeParams) (s : StabilizationManager) : JobResult :=
  if obsA ≠ compute_id then ⟨s, false, false, false, []⟩
  else
    let stage1Run : Bool := smoothing_cs != s.smoothness_checksum
    let g1 := if stage1Run then smoothFn snapshot.gyro else snapshot.gyro
    let snapshot1 : ComputeParams := { snapshot with gyro := g1 }
    let s1 := if stage1Run then { s with gyro := g1 } else s
    if obsB ≠ compute_id then ⟨s1, stage1Run, false, false, []⟩
    else
      let stage2Run : Bool :=
        stage1Run || (zoom_cs != s1.adaptive_zoom_checksum)
      let fovs2 := zoomFn snapshot1.gyro
      let snapshot2 :=
        if stage2Run then { snapshot1 with fovs := fovs2 } else snapshot1
      let s2 :=
        if stage2Run then
          { s1 with params := { s1.params with fovs := fovs2 } }
        else s1
      if obsC ≠ compute_id then ⟨s2, stage1Run, stage2Run, false, []⟩
      else
        let s3 := { s2 with
            undistortion := some snapshot2,
            smoothness_checksum := smoothing_cs,
            adaptive_zoom_checksum := zoom_cs }
        ⟨s3, stage1Run, stage2Run, true, [compute_id]⟩

/-- The synchronous part of `StabilizationManager::recompute_threaded`
(lines 314-331, 364-365): take the snapshot, store the freshly generated
job id (`new_id` stands for the `fastrand::u64` draw) as current, and
return the id to the caller; the spawned closure is `runJob`. -/
def recompute_threaded (s : StabilizationManager) (new_id : ℕ) :
    ℕ × StabilizationManager × ComputeParams :=
  (new_id, { s with current_compute_id := new_id },
    ComputeParams.from_manager s)

/-- The spec scenario's starting state: size, video size and video output
size all (1920,1080). -/
def scenarioParams : BasicParams :=
  { BasicParams.default with
      size := (1920, 1080),
      output_size := (1920, 1080),
      video_size := (1920, 1080),
      video_output_size := (1920, 1080) }

/-- Concrete smoothing recomputation used to instantiate witnesses. -/
def wSmooth : GyroState → GyroState :=
  fun g => ⟨g.quaternions, g.smoothed_quaternions + 1,
    g.org_smoothed_quaternions⟩

/-- Concrete adaptive-zoom result used to instantiate witnesses. -/
def wZoom : GyroState → List ℚ := fun _ => [2]

/-- Concrete submission snapshot used to instantiate witnesses. -/
def wSnapshot : ComputeParams := ⟨⟨1, 1, 1⟩, []⟩

/-- Concrete manager state used to instantiate witnesses. -/
def wMgr : StabilizationManager :=
  ⟨BasicParams.default, ⟨0, 0, 0⟩, 0, 0, 0, none, [], none⟩

/-- Concrete overlay function (identity) used to instantiate witnesses. -/
def wOverlay : ℤ → List ℕ → List ℕ := fun _ l => l

/-- Concrete undistortion engine used to instantiate witnesses. -/
def wEngine : ℤ → List ℕ → List ℕ → Bool × List ℕ :=
  fun _ _ o => (true, o)

/-- Concrete smoothed-orientation sampler used to instantiate witnesses. -/
def wQuatAt : ℚ → ℚ := fun t => t

/-- Concrete per-orientation zoom solver used to instantiate witnesses. -/
def wZoomF : ℚ → ℚ × ℚ := fun q => (q + 1, 0)

/-- Concrete gyro re-initialization used to instantiate witnesses. -/
def wGyroInit : BasicParams → GyroState → GyroState := fun _ g => g

/-- Parameters with an active adaptive-zoom window, used for the C9
witness. -/
def wZoomParams : BasicParams :=
  { BasicParams.default with
      adaptive_zoom_window := 1, frame_count := 2, fps := 1 }

/-! ## Theorems -/

/-- Claim C1 (code bug exhibit): with stabilization enabled, an
undistortion item of 2 parameter groups (`params_count = 18` scalars) and
`out_size = 18`, `fill_undistortion_data_padded` passes its capacity gate
and returns `true`, yet the padded layout makes it write destination index
18, which is not `< out_size` — contradicting the claim that it returns
`false` whenever the packed destination size (here 20) exceeds `out_size`
and that it never writes at an index `≥ out_size`. -/
theorem C1_fill_undistortion_overflow :
    (fill_undistortion_data_padded true (some 2) 18).fst = true ∧
    18 ∈ (fill_undistortion_data_padded true (some 2) 18).snd ∧
    ¬ (∀ i ∈ (fill_undistortion_data_padded true (some 2) 18).snd,
        i < 18) := by
  refine ⟨by decide, by decide, ?_⟩
  intro h
  exact absurd (h 18 (by decide)) (by decide)

/-- Claim C2 (code bug exhibit): at frame `f = 1` and `fps = 2`,
`frame_at_timestamp (timestamp_at_frame 1 2) 2 = 4` — the composition is
`round (f * fps^2)`, not `f` within ±1, because `timestamp_at_frame`
multiplies by `fps` instead of dividing. -/
theorem C2_frame_timestamp_not_inverse :
    frame_at_timestamp (timestamp_at_frame 1 2) 2 = 4 ∧
    ¬ (frame_at_timestamp (timestamp_at_frame 1 2) 2 - 1).natAbs ≤ 1 := by
  constructor
  · show round ((1 : ℚ) * 2 * 1000 * (2 / 1000)) = 4
    norm_num
  · show ¬ (round ((1 : ℚ) * 2 * 1000 * (2 / 1000)) - 1).natAbs ≤ 1
    norm_num

/-- Claim C3: with `video_size.width` nonzero, every `set_size` and every
`set_output_size` call re-establishes the proportionality invariant
(`output_size` equals `video_output_size` scaled by
`size.width / video_size.width`, truncated), `set_output_size` stores its
arguments as the new `video_output_size`, and the spec scenario holds:
from (1920,1080) everywhere, `set_size 960 540` yields output size
(960,540), and a following `set_output_size 1920 1080` yields output size
(960,540) with video output size (1920,1080). -/
theorem C3_size_invariant (p : BasicParams) (w h w2 h2 : ℕ)
    (hvs : p.video_size.fst ≠ 0) :
    sizeInvariant (set_size p w h) ∧
    sizeInvariant (set_output_size p w2 h2) ∧
    (set_output_size p w2 h2).video_output_size = (w2, h2) ∧
    (set_size scenarioParams 960 540).output_size = (960, 540) ∧
    (set_output_size (set_size scenarioParams 960 540) 1920 1080).output_size
      = (960, 540) ∧
    (set_output_size (set_size scenarioParams 960 540) 1920
        1080).video_output_size = (1920, 1080) := by
  refine ⟨rfl, rfl, rfl, ?_, ?_, rfl⟩ <;>
    · simp only [set_size, set_output_size, scenarioParams,
        BasicParams.default]
      norm_num [f64_as_usize]
      exact ⟨rfl, rfl⟩

/-- Witness for C3 at the scenario input. -/
theorem C3_size_invariant_witness :
    sizeInvariant (set_size scenarioParams 960 540) :=
  (C3_size_invariant scenarioParams 960 540 1920 1080 (by decide)).1

/-- Claim C7: after `clear`, exactly the six allow-listed fields keep their
pre-clear values, every other parameter-state field equals its fresh
default, the gyro source is a fresh instance, and the cached sync results
are empty. -/
theorem C7_clear_allowlist (s : StabilizationManager) :
    ((clear s).params.stab_enabled = s.params.stab_enabled ∧
     (clear s).params.show_detected_features
        = s.params.show_detected_features ∧
     (clear s).params.show_optical_flow = s.params.show_optical_flow ∧
     (clear s).params.background = s.params.background ∧
     (clear s).params.adaptive_zoom_window
        = s.params.adaptive_zoom_window ∧
     (clear s).params.framebuffer_inverted
        = s.params.framebuffer_inverted) ∧
    ((clear s).params.size = BasicParams.default.size ∧
     (clear s).params.output_size = BasicParams.default.output_size ∧
     (clear s).params.video_size = BasicParams.default.video_size ∧
     (clear s).params.video_output_size
        = BasicParams.default.video_output_size ∧
     (clear s).params.frame_readout_time
        = BasicParams.default.frame_readout_time ∧
     (clear s).params.fov = BasicParams.default.fov ∧
     (clear s).params.fovs = BasicParams.default.fovs ∧
     (clear s).params.fps = BasicParams.default.fps ∧
     (clear s).params.fps_scale = BasicParams.default.fps_scale ∧
     (clear s).params.frame_count = BasicParams.default.frame_count ∧
     (clear s).params.duration_ms = BasicParams.default.duration_ms ∧
     (clear s).params.trim_start = BasicParams.default.trim_start ∧
     (clear s).params.trim_end = BasicParams.default.trim_end ∧
     (clear s).params.video_rotation = BasicParams.default.video_rotation ∧
     (clear s).params.is_calibrator = BasicParams.default.is_calibrator) ∧
    (clear s).gyro = GyroSource_new ∧
    (clear s).sync_results = [] := by
  and_intros <;> rfl

/-- Claim C8: `init_from_video_data` always succeeds with `Ok`, stores the
given fps, frame count, duration and video size, and leaves the cached
sync results cleared — whatever the telemetry load does and even when it
fails; the load error is never propagated. -/
theorem C8_init_swallows_telemetry_error (s : StabilizationManager)
    (duration_ms fps : ℚ) (frame_count : ℕ) (video_size : ℕ × ℕ)
    (loadGyro : GyroState × ℚ × Option ℕ →
      (GyroState × ℚ × Option ℕ) × Except Unit Unit) :
    ∃ s2, init_from_video_data s duration_ms fps frame_count video_size
        loadGyro = Except.ok s2 ∧
      s2.params.fps = fps ∧
      s2.params.frame_count = frame_count ∧
      s2.params.duration_ms = duration_ms ∧
      s2.params.video_size = video_size ∧
      s2.sync_results = [] :=
  ⟨_, rfl, rfl, rfl, rfl, rfl, rfl⟩

/-- Claim C4: in a job that passes its entry checkpoint (`obsA` is its own
id), the smoothing stage runs iff the smoothing fingerprint differs from
the stored smoothness checksum, and exactly then the new quaternions are
propagated to the shared gyro; past checkpoint B, the zoom stage runs iff
smoothing changed or the zoom fingerprint differs from the stored
adaptive-zoom checksum, and exactly then its result lands in
`params.fovs`; past checkpoint C the job commits the snapshot as the
undistortion compute parameters unconditionally and stores both current
fingerprints as the new checksums. -/
theorem C4_recompute_stages
    (compute_id obsB obsC smoothing_cs zoom_cs : ℕ)
    (smoothFn : GyroState → GyroState) (zoomFn : GyroState → List ℚ)
    (snapshot : ComputeParams) (s : StabilizationManager)
    (r : JobResult) (g1 : GyroState)
    (hr : r = runJob compute_id compute_id obsB obsC smoothing_cs zoom_cs
      smoothFn zoomFn snapshot s)
    (hg : g1 = if smoothing_cs ≠ s.smoothness_checksum then
      smoothFn snapshot.gyro else snapshot.gyro) :
    (r.smoothing_ran = true ↔ smoothing_cs ≠ s.smoothness_checksum) ∧
    (smoothing_cs ≠ s.smoothness_checksum →
      r.state.gyro = smoothFn snapshot.gyro) ∧
    (smoothing_cs = s.smoothness_checksum → r.state.gyro = s.gyro) ∧
    (obsB = compute_id →
      (r.zoom_ran = true ↔
        (r.smoothing_ran = true ∨ zoom_cs ≠ s.adaptive_zoom_checksum))) ∧
    (obsB = compute_id → r.zoom_ran = true →
      r.state.params.fovs = zoomFn g1) ∧
    (obsB = compute_id → r.zoom_ran = false →
      r.state.params.fovs = s.params.fovs) ∧
    (obsB = compute_id → obsC = compute_id →
      r.committed = true ∧
      r.state.undistortion =
        some ⟨g1, if r.zoom_ran then zoomFn g1 else snapshot.fovs⟩ ∧
      r.state.smoothness_checksum = smoothing_cs ∧
      r.state.adaptive_zoom_checksum = zoom_cs) := by
  subst hr hg
  by_cases hs : smoothing_cs = s.smoothness_checksum <;>
  by_cases hz : zoom_cs = s.adaptive_zoom_checksum <;>
  by_cases hB : obsB = compute_id <;>
  by_cases hC : obsC = compute_id <;>
  simp_all [runJob, bne_iff_ne]

/-- Witness for C4: a job with both fingerprints differing from the stored
checksums, never superseded, commits. -/
theorem C4_recompute_stages_witness :
    (runJob 5 5 5 5 1 1 wSmooth wZoom wSnapshot wMgr).committed = true :=
  ((C4_recompute_stages 5 5 5 1 1 wSmooth wZoom wSnapshot wMgr _ _
    rfl rfl).2.2.2.2.2.2 rfl rfl).1

/-- Claim C5: `recompute_threaded` hands the fresh job id back at once and
stores it as current; the spawned job re-reads the stored id at entry and
after each of the first two stages and, on a mismatch, returns silently —
no further commit, no callback; the callback fires at most once per job,
always with that job's own id, and only for a job that passed all three
checkpoints. -/
theorem C5_job_cancellation
    (new_id compute_id obsA obsB obsC smoothing_cs zoom_cs : ℕ)
    (smoothFn : GyroState → GyroState) (zoomFn : GyroState → List ℚ)
    (snapshot : ComputeParams) (s s0 : StabilizationManager)
    (r : JobResult)
    (hr : r = runJob compute_id obsA obsB obsC smoothing_cs zoom_cs
      smoothFn zoomFn snapshot s) :
    ((recompute_threaded s0 new_id).fst = new_id ∧
     (recompute_threaded s0 new_id).snd.fst.current_compute_id = new_id) ∧
    (obsA ≠ compute_id → r = ⟨s, false, false, false, []⟩) ∧
    (obsB ≠ compute_id →
      r.callbacks = [] ∧ r.committed = false ∧
      r.state.undistortion = s.undistortion ∧
      r.state.params.fovs = s.params.fovs ∧
      r.state.smoothness_checksum = s.smoothness_checksum ∧
      r.state.adaptive_zoom_checksum = s.adaptive_zoom_checksum) ∧
    (obsC ≠ compute_id →
      r.callbacks = [] ∧ r.committed = false ∧
      r.state.undistortion = s.undistortion ∧
      r.state.smoothness_checksum = s.smoothness_checksum ∧
      r.state.adaptive_zoom_checksum = s.adaptive_zoom_checksum) ∧
    r.callbacks.length ≤ 1 ∧
    (∀ x ∈ r.callbacks, x = compute_id) ∧
    (r.callbacks ≠ [] →
      obsA = compute_id ∧ obsB = compute_id ∧ obsC = compute_id ∧
      r.committed = true) := by
  subst hr
  by_cases hA : obsA = compute_id <;>
  by_cases hB : obsB = compute_id <;>
  by_cases hC : obsC = compute_id <;>
  by_cases hs : smoothing_cs = s.smoothness_checksum <;>
  by_cases hz : zoom_cs = s.adaptive_zoom_checksum <;>
  simp_all [runJob, recompute_threaded, bne_iff_ne]

/-- Witness for C5: a job whose entry checkpoint sees a different stored id
returns silently with no state change and no callback. -/
theorem C5_job_cancellation_witness :
    runJob 7 3 7 7 1 2 wSmooth wZoom wSnapshot wMgr =
      ⟨wMgr, false, false, false, []⟩ :=
  (C5_job_cancellation 1 7 3 7 7 1 2 wSmooth wZoom wSnapshot wMgr wMgr _
    rfl).2.1 (by decide)

/-- Claim C6: `process_pixels` returns `false` with the output buffer
untouched whenever stabilization is disabled or the requested output
dimensions differ from the configured output size; otherwise it delegates
to the undistortion engine (with the fps-scale-adjusted timestamp and the
overlaid input) and returns the engine's result verbatim. -/
theorem C6_process_pixels_guard (p : BasicParams) (ts : ℤ)
    (ow oh : ℕ) (inp outp : List ℕ)
    (overlayFn : ℤ → List ℕ → List ℕ)
    (engine : ℤ → List ℕ → List ℕ → Bool × List ℕ) :
    (¬(p.stab_enabled = true ∧ p.output_size.fst = ow ∧
        p.output_size.snd = oh) →
      process_pixels p ts ow oh inp outp overlayFn engine = (false, outp)) ∧
    ((p.stab_enabled = true ∧ p.output_size.fst = ow ∧
        p.output_size.snd = oh) → p.fps_scale = none →
      process_pixels p ts ow oh inp outp overlayFn engine =
        engine ts
          (overlayFn (frame_at_timestamp ((ts : ℚ) / 1000) p.fps) inp)
          outp) ∧
    ((p.stab_enabled = true ∧ p.output_size.fst = ow ∧
        p.output_size.snd = oh) → ∀ scale, p.fps_scale = some scale →
      process_pixels p ts ow oh inp outp overlayFn engine =
        engine (round ((ts : ℚ) / scale))
          (overlayFn
            (frame_at_timestamp ((round ((ts : ℚ) / scale) : ℤ) / 1000)
              p.fps) inp)
          outp) := by
  refine ⟨fun h => ?_, fun h hsc => ?_, fun h scale hsc => ?_⟩
  · simp [process_pixels, h]
  · simp [process_pixels, h, hsc]
  · simp [process_pixels, h, hsc]

/-- Witness for C6: with default parameters (output size (0,0)) and a
requested 1x1 output, the call fails and leaves the output buffer as it
was. -/
theorem C6_process_pixels_guard_witness :
    process_pixels BasicParams.default 0 1 1 [] [5] wOverlay wEngine =
      (false, [5]) :=
  (C6_process_pixels_guard BasicParams.default 0 1 1 [] [5] wOverlay
    wEngine).1 (by decide)

/-- Claim C9: `recompute_adaptive_zoom_static` returns the empty fovs list
when the adaptive-zoom window is neither strictly positive nor strictly
below -0.9; otherwise it returns exactly one value per frame, the zoom
solver's output on the smoothed orientation sampled at timestamp
`i * 1000 / scaled_fps` for `i` in `0..frame_count`; and
`recompute_adaptive_zoom` stores that result into `params.fovs`. -/
theorem C9_adaptive_zoom_guard (f : ℚ → ℚ × ℚ) (qat : ℚ → ℚ)
    (p : BasicParams) (s : StabilizationManager) :
    (¬(p.adaptive_zoom_window > 0 ∨
        p.adaptive_zoom_window < -(9 / 10 : ℚ)) →
      recompute_adaptive_zoom_static f qat p = []) ∧
    ((p.adaptive_zoom_window > 0 ∨
        p.adaptive_zoom_window < -(9 / 10 : ℚ)) →
      recompute_adaptive_zoom_static f qat p =
        (List.range p.frame_count).map
          (fun (i : ℕ) =>
            (f (qat ((i : ℚ) * 1000 / get_scaled_fps p))).fst) ∧
      (recompute_adaptive_zoom_static f qat p).length = p.frame_count) ∧
    (recompute_adaptive_zoom f qat s).params.fovs =
      recompute_adaptive_zoom_static f qat s.params := by
  have he : (p.adaptive_zoom_window > 0 ∨
      p.adaptive_zoom_window < -(9 / 10 : ℚ)) →
      recompute_adaptive_zoom_static f qat p =
        (List.range p.frame_count).map
          (fun (i : ℕ) =>
            (f (qat ((i : ℚ) * 1000 / get_scaled_fps p))).fst) := by
    intro h
    simp [recompute_adaptive_zoom_static, AdaptiveZoom_compute, h,
      Function.comp]
  refine ⟨fun h => ?_, fun h => ⟨he h, ?_⟩, rfl⟩
  · simp [recompute_adaptive_zoom_static, h]
  · rw [he h]
    simp

/-- Witness for C9: with a window of 1 and two frames the helper yields
one fov per frame. -/
theorem C9_adaptive_zoom_guard_witness :
    (recompute_adaptive_zoom_static wZoomF wQuatAt wZoomParams).length =
      2 :=
  ((C9_adaptive_zoom_guard wZoomF wQuatAt wZoomParams wMgr).2.1
    (by norm_num [wZoomParams])).2

/-- Helper: a job passing its entry checkpoint runs the smoothing stage
exactly when the smoothing fingerprint differs from the stored checksum,
whatever the later checkpoints observe. -/
theorem runJob_smoothing_ran
    (compute_id obsB obsC smoothing_cs zoom_cs : ℕ)
    (smoothFn : GyroState → GyroState) (zoomFn : GyroState → List ℚ)
    (snapshot : ComputeParams) (s : StabilizationManager) :
    (runJob compute_id compute_id obsB obsC smoothing_cs zoom_cs smoothFn
      zoomFn snapshot s).smoothing_ran =
      (smoothing_cs != s.smoothness_checksum) := by
  by_cases hs : smoothing_cs = s.smoothness_checksum <;>
  by_cases hB : obsB = compute_id <;>
  by_cases hC : obsC = compute_id <;>
    simp_all [runJob, bne_iff_ne]

/-- Helper: a job passing checkpoints A and B runs the zoom stage exactly
when smoothing ran or the zoom fingerprint differs from the stored
checksum. -/
theorem runJob_zoom_ran (compute_id obsC smoothing_cs zoom_cs : ℕ)
    (smoothFn : GyroState → GyroState) (zoomFn : GyroState → List ℚ)
    (snapshot : ComputeParams) (s : StabilizationManager) :
    (runJob compute_id compute_id compute_id obsC smoothing_cs zoom_cs
      smoothFn zoomFn snapshot s).zoom_ran =
      ((smoothing_cs != s.smoothness_checksum) ||
        (zoom_cs != s.adaptive_zoom_checksum)) := by
  by_cases hs : smoothing_cs = s.smoothness_checksum <;>
  by_cases hz : zoom_cs = s.adaptive_zoom_checksum <;>
  by_cases hC : obsC = compute_id <;>
    simp_all [runJob, bne_iff_ne]

/-- Claim C10: `override_video_fps` clears the fps scale when the new fps
is within 0.001 of the nominal one and otherwise stores
`some (fps / nominal)`; it rebuilds the undistortion compute parameters
from the updated manager and zeroes both stored checksums, so a following
job whose fingerprints are nonzero cannot skip its stages; the scaled
accessors divide by the stored scale when present and return the raw
values when absent. -/
theorem C10_override_video_fps
    (gyroInit : BasicParams → GyroState → GyroState)
    (s : StabilizationManager) (fps : ℚ) (r : StabilizationManager)
    (hr : r = override_video_fps gyroInit s fps) :
    (|fps - s.params.fps| ≤ 1 / 1000 → r.params.fps_scale = none) ∧
    (|fps - s.params.fps| > 1 / 1000 →
      r.params.fps_scale = some (fps / s.params.fps)) ∧
    r.smoothness_checksum = 0 ∧
    r.adaptive_zoom_checksum = 0 ∧
    r.undistortion = some ⟨r.gyro, r.params.fovs⟩ ∧
    (∀ scale, r.params.fps_scale = some scale →
      get_scaled_fps r.params = r.params.fps / scale ∧
      get_scaled_duration_ms r.params = r.params.duration_ms / scale) ∧
    (r.params.fps_scale = none →
      get_scaled_fps r.params = r.params.fps ∧
      get_scaled_duration_ms r.params = r.params.duration_ms) ∧
    (∀ id obsB obsC smoothing_cs zoom_cs smoothFn zoomFn snapshot,
      smoothing_cs ≠ 0 →
      (runJob id id obsB obsC smoothing_cs zoom_cs smoothFn zoomFn
        snapshot r).smoothing_ran = true) ∧
    (∀ id obsB obsC zoom_cs smoothFn zoomFn snapshot,
      zoom_cs ≠ 0 → obsB = id →
      (runJob id id obsB obsC 0 zoom_cs smoothFn zoomFn
        snapshot r).zoom_ran = true) := by
  subst hr
  have h0s : (override_video_fps gyroInit s fps).smoothness_checksum = 0 :=
    rfl
  have h0z :
      (override_video_fps gyroInit s fps).adaptive_zoom_checksum = 0 :=
    rfl
  refine ⟨fun hle => ?_, fun hgt => ?_, rfl, rfl, rfl,
    fun scale hsc => ?_, fun hsc => ?_, ?_, ?_⟩
  · have hn : ¬ |fps - s.params.fps| > 1 / 1000 := not_lt.mpr hle
    simp only [override_video_fps]
    split_ifs
    rfl
  · simp only [override_video_fps]
    split_ifs
    rfl
  · simp [get_scaled_fps, get_scaled_duration_ms, hsc]
  · simp [get_scaled_fps, get_scaled_duration_ms, hsc]
  · intro id obsB obsC smoothing_cs zoom_cs smoothFn zoomFn snapshot hne
    rw [runJob_smoothing_ran, h0s]
    simpa [bne_iff_ne] using hne
  · intro id obsB obsC zoom_cs smoothFn zoomFn snapshot hne hB
    subst hB
    rw [runJob_zoom_ran, h0s, h0z]
    simpa [bne_iff_ne] using hne

/-- Witness for C10: overriding with the same fps (difference 0) clears
the scale. -/
theorem C10_override_video_fps_witness :
    (override_video_fps wGyroInit wMgr 0).params.fps_scale = none :=
  (C10_override_video_fps wGyroInit wMgr 0 _ rfl).1
    (by norm_num [wMgr, BasicParams.default])

end Gyroflow
